import Mathlib

/-!
Shallow embedding of the hash-chained audit ledger and the backup /
disaster-recovery subsystems of the Saudi AI audit platform
(`audit/core.py`, `audit/backup.py`, `backup/disaster_recovery.py`),
together with theorems settling the specified properties.

Modelling conventions:
* Python values that flow through `json.dumps` are modelled by the
  inductive `PyVal`; `PyVal.pyObject` stands for an arbitrary Python
  object that is not JSON-serializable (on which `json.dumps` raises
  `TypeError`).
* `datetime` instants are modelled as integers; `isoformat` is modelled
  as an injective rendering into strings.  Wall-clock soft-SLA checks
  (the 50 ms append budget, the 3 s verification budget, the 4 h RTO)
  are not modelled: in the model no operation ever exceeds its budget,
  matching the code paths the claims are about.
* SHA-256 is idealised as an injective tagging of its input string
  (a collision-free abstraction of the cryptographic hash).
* Exceptions are modelled with `Except`; a function that can raise and
  also mutates state returns the state it leaves behind, so "raised
  before any mutation" is visible in the definition.
-/

set_option maxRecDepth 8000
set_option linter.unusedVariables false

namespace SaudiAudit

mutual

/-- JSON-serializable Python values, plus `pyObject` for an arbitrary
Python object on which `json.dumps` raises `TypeError`.  Lists and
dicts are represented by the mutual types `PyList` and `PyFields` so
that the serializer is structurally recursive. -/
inductive PyVal where
  | jnull : PyVal
  | jbool (b : Bool) : PyVal
  | jnum (q : Rat) : PyVal
  | jstr (s : String) : PyVal
  | jarr (xs : PyList) : PyVal
  | jobj (fields : PyFields) : PyVal
  | pyObject (tag : Nat) : PyVal

/-- A Python list of values. -/
inductive PyList where
  | nil : PyList
  | cons (v : PyVal) (rest : PyList) : PyList

/-- The key/value pairs of a Python dict (keys unique). -/
inductive PyFields where
  | nil : PyFields
  | cons (k : String) (v : PyVal) (rest : PyFields) : PyFields

end

/-- Build a dict's field sequence from a literal association list. -/
def fieldsOf : List (String × PyVal) → PyFields
  | [] => .nil
  | (k, v) :: rest => .cons k v (fieldsOf rest)

/-- Rendering of a JSON string literal.  Escaping of special characters
is abstracted away (the strings appearing in the development contain
none); the rendering is injective on such strings. -/
def strQuote (s : String) : String := "\"" ++ s ++ "\""

/-- Rendering of a Python number by `json.dumps`: integers print without
a decimal point; non-integral values are rendered by an abstract
injective decimal form. -/
def numRepr (q : Rat) : String :=
  if q.den = 1 then toString q.num else toString q.num ++ "/" ++ toString q.den

/-- `", "`-joined concatenation, as used by `json.dumps` between items. -/
def joinComma : List String → String
  | [] => ""
  | [s] => s
  | s :: rest => s ++ ", " ++ joinComma rest

/-- Code-point lexicographic comparison of character lists (the string
order Python's `sorted` uses on dict keys). -/
def charListLt : List Char → List Char → Bool
  | [], [] => false
  | [], _ :: _ => true
  | _ :: _, [] => false
  | a :: as, b :: bs =>
    if a.toNat < b.toNat then true
    else if b.toNat < a.toNat then false
    else charListLt as bs

/-- Python string `<` (code-point lexicographic). -/
def strLt (a b : String) : Bool := charListLt a.data b.data

/-- Stable insertion of a key/value pair into a key-sorted field
sequence (helper for `sort_keys=True`). -/
def insertField (k : String) (v : PyVal) : PyFields → PyFields
  | .nil => .cons k v .nil
  | .cons k2 v2 rest =>
    if strLt k2 k then .cons k2 v2 (insertField k v rest) else .cons k v (.cons k2 v2 rest)

/-- Sort a dict's fields by key (the `sort_keys=True` behaviour of
`json.dumps`). -/
def sortFields : PyFields → PyFields
  | .nil => .nil
  | .cons k v rest => insertField k v (sortFields rest)

mutual

/-- Recursively sort every dict's fields by key, modelling the
`sort_keys=True` traversal of `json.dumps`. -/
def sortKeys : PyVal → PyVal
  | .jnull => .jnull
  | .jbool b => .jbool b
  | .jnum q => .jnum q
  | .jstr s => .jstr s
  | .jarr xs => .jarr (sortKeysList xs)
  | .jobj fs => .jobj (sortFields (sortKeysFields fs))
  | .pyObject t => .pyObject t

def sortKeysList : PyList → PyList
  | .nil => .nil
  | .cons v vs => .cons (sortKeys v) (sortKeysList vs)

def sortKeysFields : PyFields → PyFields
  | .nil => .nil
  | .cons k v kvs => .cons k (sortKeys v) (sortKeysFields kvs)

end

mutual

/-- Serialize an (already key-sorted) value the way `json.dumps` lays it
out with the default separators; returns `none` when the value contains
a non-JSON-serializable object (Python raises `TypeError`). -/
def dumpsRaw : PyVal → Option String
  | .jnull => some "null"
  | .jbool b => some (if b then "true" else "false")
  | .jnum q => some (numRepr q)
  | .jstr s => some (strQuote s)
  | .jarr xs => (dumpsList xs).map (fun parts => "[" ++ joinComma parts ++ "]")
  | .jobj fs => (dumpsFields fs).map (fun parts => "\x7b" ++ joinComma parts ++ "\x7d")
  | .pyObject _ => none

def dumpsList : PyList → Option (List String)
  | .nil => some []
  | .cons v vs =>
    match dumpsRaw v, dumpsList vs with
    | some s, some rest => some (s :: rest)
    | _, _ => none

def dumpsFields : PyFields → Option (List String)
  | .nil => some []
  | .cons k v kvs =>
    match dumpsRaw v, dumpsFields kvs with
    | some s, some rest => some ((strQuote k ++ ": " ++ s) :: rest)
    | _, _ => none

end

/-- `json.dumps(value, sort_keys=True, ensure_ascii=False)`:
`none` models the `TypeError` raised on non-serializable data. -/
def dumps (v : PyVal) : Option String := dumpsRaw (sortKeys v)

/-- Idealised SHA-256 hex digest: an injective tagging of the input
string (collision-free abstraction of `hashlib.sha256(...).hexdigest()`). -/
def sha256hex (s : String) : String := "sha256:" ++ s

/-- Injective rendering of a `datetime` instant by `isoformat()`. -/
def isoformat (t : Int) : String := toString t

/-- First-match association lookup, modelling `dict[key]` /
`dict.get(key)` on a Python dict (keys are unique in a dict, so
first-match agrees with dict semantics). -/
def lookupField (l : PyFields) (key : String) : Option PyVal :=
  match l with
  | .nil => none
  | .cons k v kvs => if k = key then some v else lookupField kvs key

/-! ## The hash-chained ledger (`audit/core.py`, class `HashChainedLedger`) -/

/-- Fixed genesis sentinel (`self.genesis_hash`). -/
def genesisHash : String := "SAUDI_AI_AUDIT_GENESIS_2024"

/-- `self.retention_years`. -/
def retentionYears : Int := 7

/-- A ledger entry, as built by `append_entry`: the keys of the
`complete_entry` dict.  `hash` and `previous_hash` hold `Option String`
because Python stores `None` in `hash` while the digest is being
computed, and because both are read back untyped from the dict. -/
structure Entry where
  id : String
  data : PyVal
  timestamp : Int
  timestampHijri : String
  previousHash : Option String
  hash : Option String
  chainPosition : Nat
  retentionUntil : Int

/-- The dict view of an entry handed to `_calculate_hash`: all keys of
`complete_entry`, with the `hash` key removed when `exclude_hash` is
set (Python's `del entry_copy["hash"]`).  `json.dumps(..., sort_keys=True)`
re-sorts the keys, so the listing order here is irrelevant. -/
def entryToPyVal (e : Entry) (excludeHash : Bool) : PyVal :=
  .jobj (fieldsOf (
    [("id", .jstr e.id),
     ("data", e.data),
     ("timestamp", .jstr (isoformat e.timestamp)),
     ("timestamp_hijri", .jstr e.timestampHijri),
     ("previous_hash", match e.previousHash with | none => .jnull | some s => .jstr s),
     ("chain_position", .jnum (e.chainPosition : Rat)),
     ("retention_until", .jstr (isoformat e.retentionUntil))]
    ++ (if excludeHash then []
        else [("hash", match e.hash with | none => .jnull | some s => .jstr s)])))

/-- `_calculate_hash(entry, exclude_hash)`: SHA-256 over the key-sorted
JSON serialization; `none` models the `TypeError` raised by
`json.dumps` on non-serializable payload data. -/
def calculateHash (e : Entry) (excludeHash : Bool) : Option String :=
  (dumps (entryToPyVal e excludeHash)).map sha256hex

/-- A corruption record appended to `corrupted_entries` by
`verify_chain_integrity`: either a hash mismatch record
(`position`, `entry_id`, `expected_hash`, `actual_hash`) or a broken
chain-link record (`position`, `entry_id`, `chain_link_broken`). -/
inductive CorruptRecord where
  | hashMismatch (position : Nat) (entryId : String)
      (expectedHash : String) (actualHash : Option String) : CorruptRecord
  | linkBroken (position : Nat) (entryId : String) : CorruptRecord

/-- The chain position a corruption record reports. -/
def CorruptRecord.position : CorruptRecord → Nat
  | .hashMismatch p _ _ _ => p
  | .linkBroken p _ => p

/-- Whether a corruption record is a `chain_link_broken` record. -/
def CorruptRecord.isLinkBroken : CorruptRecord → Bool
  | .hashMismatch _ _ _ _ => false
  | .linkBroken _ _ => true

/-- The corruption report persisted by `_handle_corruption`
(`corruption_details`: detection time, corrupted count, total entries,
the corruption records). -/
structure CorruptionReport where
  detectedAt : Int
  corruptedCount : Nat
  totalEntries : Nat
  corruptionEntries : List CorruptRecord

/-- In-memory state of a `HashChainedLedger`: the chain, the
`entry_id -> index` map, the `_corruption_checks_enabled` flag and the
corruption reports persisted so far (files written by
`_handle_corruption`). -/
structure LedgerState where
  chain : List Entry
  chainIndex : List (String × Nat)
  corruptionChecksEnabled : Bool
  corruptionReports : List CorruptionReport

/-- A fresh ledger with no persisted chain on disk (`__init__` with an
empty data directory). -/
def initialLedger : LedgerState :=
  { chain := [], chainIndex := [], corruptionChecksEnabled := true, corruptionReports := [] }

/-- The values `datetime.now()` contributes to one `append_entry` call:
the `strftime` string used in the entry id, the instant itself and the
Hijri date string. -/
structure Clock where
  tsIdStr : String
  timestamp : Int
  hijri : String

/-- Python `str(...)` rendering used by f-string interpolation in
`_generate_entry_id` (payload fields are strings in every scenario of
the spec; other values get an abstract rendering). -/
def fstr : PyVal → String
  | .jstr s => s
  | .jnum q => numRepr q
  | .jbool b => if b then "True" else "False"
  | .jnull => "None"
  | .jarr _ => "<list>"
  | .jobj _ => "<dict>"
  | .pyObject t => "<object " ++ toString t ++ ">"

mutual

/-- Whether `json.dumps` can serialize the value: `false` exactly when
a `pyObject` occurs at some depth. -/
def serializable : PyVal → Bool
  | .jnull => true
  | .jbool _ => true
  | .jnum _ => true
  | .jstr _ => true
  | .pyObject _ => false
  | .jarr xs => serializableList xs
  | .jobj fs => serializableFields fs

/-- Serializability of each element of a list. -/
def serializableList : PyList → Bool
  | .nil => true
  | .cons v vs => serializable v && serializableList vs

/-- Serializability of each value of a dict. -/
def serializableFields : PyFields → Bool
  | .nil => true
  | .cons _ v kvs => serializable v && serializableFields kvs

end

/-- `_generate_entry_id`: `f"{decision_type}_{user_id}_{timestamp}"`,
with `entry_data.get("decision_type", "UNKNOWN")` and
`entry_data.get("user_id", "SYSTEM")`. -/
def generateEntryId (entryData : PyFields) (tsIdStr : String) : String :=
  let decisionType := match lookupField entryData "decision_type" with
    | some v => fstr v
    | none => "UNKNOWN"
  let userId := match lookupField entryData "user_id" with
    | some v => fstr v
    | none => "SYSTEM"
  decisionType ++ "_" ++ userId ++ "_" ++ tsIdStr

/-- `_get_latest_hash`: the stored `hash` value of the tail entry, or
the genesis sentinel for an empty chain. -/
def getLatestHash (st : LedgerState) : Option String :=
  match st.chain.getLast? with
  | none => some genesisHash
  | some e => e.hash

/-- `dict[key] = value` on the `entry_id -> index` map. -/
def indexSet (idx : List (String × Nat)) (key : String) (val : Nat) : List (String × Nat) :=
  match idx with
  | [] => [(key, val)]
  | kv :: kvs => if kv.1 = key then (key, val) :: kvs else kv :: indexSet kvs key val

/-- `append_entry(entry_data)`.  Builds `complete_entry` with
`hash = None`, computes the digest via `_calculate_hash(complete_entry)`
(NOTE: `exclude_hash` defaults to `False` there, so the serialized dict
still contains `"hash": null`), then appends to the chain and index.
A `TypeError` from `json.dumps` is caught by the outer handler and
re-raised before any mutation, so the error branch returns the state
unchanged.  The soft 50 ms SLA check only logs and is not modelled. -/
def appendEntry (st : LedgerState) (entryData : PyFields) (ck : Clock) :
    Except String String × LedgerState :=
  let entryId := generateEntryId entryData ck.tsIdStr
  let previousHash := getLatestHash st
  let e0 : Entry :=
    { id := entryId
      data := .jobj entryData
      timestamp := ck.timestamp
      timestampHijri := ck.hijri
      previousHash := previousHash
      hash := none
      chainPosition := st.chain.length
      retentionUntil := ck.timestamp + 365 * retentionYears * 86400 }
  match calculateHash e0 false with
  | none => (.error "Chain append failed: payload is not JSON-serializable", st)
  | some h =>
    let e := { e0 with hash := some h }
    (.ok entryId,
     { st with
        chain := st.chain ++ [e]
        chainIndex := indexSet st.chainIndex entryId st.chain.length })

/-- Successful result of `verify_chain_integrity` (the timeout branch
and the exception branch are separated out in `VerifyOutcome`). -/
structure VerifyResult where
  valid : Bool
  entriesCount : Nat
  integrityScore : Rat
  corruptedEntries : List CorruptRecord

/-- Outcome of `verify_chain_integrity`: a normal result, or the
`except` branch (`{"valid": False, "error": ...}`) reached when an
entry's data is not serializable. -/
inductive VerifyOutcome where
  | ok (r : VerifyResult) : VerifyOutcome
  | err (msg : String) : VerifyOutcome

/-- The scan loop of `verify_chain_integrity`: for each entry compare
the stored hash with `_calculate_hash(entry, exclude_hash=True)`, and
for each non-genesis entry compare `previous_hash` with the
predecessor's stored `hash`; collect corruption records in loop order.
`none` models the exception raised on non-serializable entry data.
The 3 s soft-timeout check inside the loop never fires in the model. -/
def checkEntries : List Entry → Nat → Option Entry → Option (List CorruptRecord)
  | [], _, _ => some []
  | e :: rest, i, prev =>
    match calculateHash e true with
    | none => none
    | some expected =>
      let hashRecs : List CorruptRecord :=
        if e.hash = some expected then []
        else [.hashMismatch i e.id expected e.hash]
      let linkRecs : List CorruptRecord :=
        match prev with
        | none => []
        | some p => if e.previousHash = p.hash then [] else [.linkBroken i e.id]
      match checkEntries rest (i + 1) (some e) with
      | none => none
      | some tailRecs => some (hashRecs ++ linkRecs ++ tailRecs)

/-- `verify_chain_integrity()`.  Empty chain: trivially valid with
score 1.0.  Otherwise run the scan; on corruption call
`_handle_corruption`, which persists a corruption report and sets
`_corruption_checks_enabled = False`.  Returns the result together
with the ledger state it leaves behind. -/
def verifyChainIntegrity (st : LedgerState) (now : Int) : VerifyOutcome × LedgerState :=
  if st.chain.isEmpty then
    (.ok { valid := true, entriesCount := 0, integrityScore := 1, corruptedEntries := [] }, st)
  else
    match checkEntries st.chain 0 none with
    | none => (.err "entry data not serializable", st)
    | some recs =>
      let score : Rat := 1 - (recs.length : Rat) / (st.chain.length : Rat)
      if recs.isEmpty then
        (.ok { valid := true, entriesCount := st.chain.length,
               integrityScore := score, corruptedEntries := [] }, st)
      else
        (.ok { valid := false, entriesCount := st.chain.length,
               integrityScore := score, corruptedEntries := recs },
         { st with
            corruptionChecksEnabled := false
            corruptionReports := st.corruptionReports ++
              [{ detectedAt := now, corruptedCount := recs.length,
                 totalEntries := st.chain.length, corruptionEntries := recs }] })

/-- A corruption record collected by `verify_range`
(`entry_id`, `timestamp`, `expected_hash`, `actual_hash`). -/
structure RangeCorrupt where
  entryId : String
  timestamp : Int
  expectedHash : String
  actualHash : Option String

/-- Result dict of `verify_range`. -/
structure RangeResult where
  valid : Bool
  entriesCount : Nat
  integrityScore : Rat
  corruptedEntries : List RangeCorrupt

/-- The filter of `verify_range`: timestamp in `[start_date, end_date]`
and, when a decision-type filter is given,
`entry["data"].get("decision_type") == decision_type` (a Python string
comparison: true only when the stored value is that very string). -/
def matchesRange (startDate endDate : Int) (decisionType : Option String) (e : Entry) : Bool :=
  decide (startDate ≤ e.timestamp) && decide (e.timestamp ≤ endDate) &&
    (match decisionType with
     | none => true
     | some dt =>
       match e.data with
       | .jobj fields =>
         match lookupField fields "decision_type" with
         | some (.jstr s) => s = dt
         | _ => false
       | _ => false)

/-- The per-entry loop of `verify_range`: recompute each matching
entry's hash with `exclude_hash=True` and record a mismatch; `none`
models the uncaught exception on non-serializable entry data. -/
def rangeCheck : List Entry → Option (List RangeCorrupt)
  | [] => some []
  | e :: rest =>
    match calculateHash e true with
    | none => none
    | some expected =>
      match rangeCheck rest with
      | none => none
      | some tailRecs =>
        if e.hash = some expected then some tailRecs
        else some (.mk e.id e.timestamp expected e.hash :: tailRecs)

/-- `verify_range(start_date, end_date, decision_type)`: filter the
chain by timestamp window and optional decision type, then check only
hash self-consistency of each matching entry (no chain-linkage check).
`integrity_score = 1 - corrupted / max(matching, 1)`. -/
def verifyRange (st : LedgerState) (startDate endDate : Int)
    (decisionType : Option String) : Option RangeResult :=
  let matching := st.chain.filter (matchesRange startDate endDate decisionType)
  match rangeCheck matching with
  | none => none
  | some corrupted =>
    some { valid := corrupted.isEmpty
           entriesCount := matching.length
           integrityScore := 1 - (corrupted.length : Rat) / (max matching.length 1 : Rat)
           corruptedEntries := corrupted }

/-- `log_bias_alert(entry_id, bias_result)`.  Building `alert_entry`
evaluates `bias_result["confidence"]` (a `KeyError` when the key is
absent, raised before `append_entry` is reached) and compares it with
`0.8` (numbers and booleans compare; anything else is a `TypeError`).
On success the alert entry is appended to the chain. -/
def logBiasAlert (st : LedgerState) (entryId : String)
    (biasResult : PyFields) (ck : Clock) (alertIdTs : String) :
    Except String Unit × LedgerState :=
  match lookupField biasResult "confidence" with
  | none => (.error "KeyError: confidence", st)
  | some conf =>
    let confVal : Option Rat :=
      match conf with
      | .jnum q => some q
      | .jbool b => some (if b then 1 else 0)
      | _ => none
    match confVal with
    | none => (.error "TypeError: unorderable confidence", st)
    | some q =>
      let severity := if (4 : Rat) / 5 < q then "HIGH" else "MEDIUM"
      let alertEntry : PyFields := fieldsOf
        [("id", .jstr ("BIAS_ALERT_" ++ alertIdTs)),
         ("alert_type", .jstr "bias_detection"),
         ("related_entry", .jstr entryId),
         ("bias_details", .jobj biasResult),
         ("severity", .jstr severity),
         ("regulatory_notification", .jbool true),
         ("timestamp", .jstr (isoformat ck.timestamp))]
      match appendEntry st alertEntry ck with
      | (.ok _, st') => (.ok (), st')
      | (.error msg, st') => (.error msg, st')

/-! ## The automated backup system (`audit/backup.py`, class
`AutomatedBackupSystem`) — the restore path used by claim C8. -/

/-- Generic first-match association lookup (a name looked up in a
directory listing). -/
def lookupStr {α : Type} (l : List (String × α)) (key : String) : Option α :=
  match l with
  | [] => none
  | kv :: kvs => if kv.1 = key then some kv.2 else lookupStr kvs key

/-- One `files_backed_up` record of a backup manifest. -/
structure FileInfo where
  originalFilename : String
  backupFilename : String
  compressed : Bool

/-- A backup manifest (`backup_manifest.json`). -/
structure Manifest where
  filesBackedUp : List FileInfo
  startTime : String

/-- The on-disk content of one backup directory: its manifest (if the
manifest file exists) and the backed-up files with their sizes. -/
structure BackupData where
  manifest : Option Manifest
  files : List (String × Nat)

/-- The backup storage tree: `daily/<backup_id>`,
`monthly/<archive>/<backup_id>` and `yearly/<dir>/<backup_id>`. -/
structure BackupFS where
  daily : List (String × BackupData)
  monthly : List (String × List (String × BackupData))
  yearly : List (String × List (String × BackupData))

/-- Scan the subdirectories of the monthly or yearly tier for a backup
id (the `glob("*")` loops of `_find_backup`). -/
def findInArchives (dirs : List (String × List (String × BackupData)))
    (backupId : String) : Option BackupData :=
  match dirs with
  | [] => none
  | d :: rest =>
    match lookupStr d.2 backupId with
    | some b => some b
    | none => findInArchives rest backupId

/-- `_find_backup(backup_id)`: daily tier first, then monthly archives,
then yearly archives. -/
def findBackup (fs : BackupFS) (backupId : String) : Option BackupData :=
  match lookupStr fs.daily backupId with
  | some b => some b
  | none =>
    match findInArchives fs.monthly backupId with
    | some b => some b
    | none => findInArchives fs.yearly backupId

/-- The loop of `_verify_backup`: collect (in loop order) the manifest
entries whose backup file is missing, and those present with size 0. -/
def verifyScan (files : List (String × Nat)) :
    List FileInfo → List String × List String
  | [] => ([], [])
  | fi :: rest =>
    let mc := verifyScan files rest
    match lookupStr files fi.backupFilename with
    | none => (fi.backupFilename :: mc.1, mc.2)
    | some size => if size = 0 then (mc.1, fi.backupFilename :: mc.2) else mc

/-- Result dict of `_verify_backup`. -/
structure BackupVerification where
  valid : Bool
  filesChecked : Nat
  missingFiles : List String
  corruptedFiles : List String

/-- `_verify_backup(backup_dir)`: invalid if the manifest file is
missing; otherwise every manifest entry must exist with nonzero size. -/
def verifyBackup (b : BackupData) : BackupVerification :=
  match b.manifest with
  | none => { valid := false, filesChecked := 0, missingFiles := [], corruptedFiles := [] }
  | some m =>
    let mc := verifyScan b.files m.filesBackedUp
    { valid := mc.1.length = 0 && mc.2.length = 0
      filesChecked := m.filesBackedUp.length
      missingFiles := mc.1
      corruptedFiles := mc.2 }

/-- `self.primary_data_dir` (the default restore target). -/
def primaryDataDir : String := "audit_data"

/-- Result dict of `restore_from_backup`, extended with the list of
files written into the restore target (`targetWrites`), so that
"no partial writes to target" is a provable statement. -/
structure RestoreResult where
  success : Bool
  error : Option String
  restoredFiles : List String
  targetWrites : List String

/-- The restore loop of `restore_from_backup`: copy (or decompress)
each manifest artifact into the target; a missing source file raises
mid-loop, keeping the writes made so far. -/
def restoreLoop (b : BackupData) (targetDir : String) :
    List FileInfo → List String → Option String × List String
  | [], acc => (none, acc)
  | fi :: rest, acc =>
    match lookupStr b.files fi.backupFilename with
    | none => (some ("restore source missing: " ++ fi.backupFilename), acc)
    | some _ => restoreLoop b targetDir rest (acc ++ [targetDir ++ "/" ++ fi.originalFilename])

/-- `restore_from_backup(backup_id, restore_path)`: find the backup
across the three tiers, load its manifest, verify integrity, then copy
every manifest artifact to the target.  Each `raise` is caught by the
outer handler which returns `{"success": False, "error": ...}`; the
raises for a missing backup, a missing manifest and a failed integrity
check all happen before any write to the target. -/
def restoreFromBackup (fs : BackupFS) (backupId : String)
    (restorePath : Option String) : RestoreResult :=
  match findBackup fs backupId with
  | none =>
    { success := false, error := some ("Backup " ++ backupId ++ " not found"),
      restoredFiles := [], targetWrites := [] }
  | some b =>
    match b.manifest with
    | none =>
      { success := false, error := some ("Backup manifest not found for " ++ backupId),
        restoredFiles := [], targetWrites := [] }
    | some m =>
      let ver := verifyBackup b
      if ver.valid then
        let targetDir := match restorePath with
          | some p => p
          | none => primaryDataDir
        match restoreLoop b targetDir m.filesBackedUp [] with
        | (none, writes) =>
          { success := true, error := none, restoredFiles := writes, targetWrites := writes }
        | (some msg, writes) =>
          { success := false, error := some msg, restoredFiles := [], targetWrites := writes }
      else
        { success := false, error := some ("Backup " ++ backupId ++ " failed integrity check"),
          restoredFiles := [], targetWrites := [] }

/-! ## The disaster-recovery coordinator
(`backup/disaster_recovery.py`, class `DisasterRecoverySystem`) -/

/-- The record appended to `self.recovery_history` on the non-exception
path of `perform_recovery` (only the claim-relevant fields). -/
structure RecoveryRecord where
  recoveryPointId : String
  succeeded : Bool
  stepResults : List (String × Bool)
  verificationOk : Bool

/-- Mutable state of `DisasterRecoverySystem`. -/
structure DRState where
  recoveryInProgress : Bool
  recoveryHistory : List RecoveryRecord

/-- The world `perform_recovery` observes through its I/O helpers: what
each filesystem probe and sub-operation would find.  The helper
definitions below read exactly the fields the corresponding Python
helpers read. -/
structure RecEnv where
  rpExists : Bool
  metadataExists : Bool
  metadataChecksum : Option String
  currentChecksum : String
  rpMissingFiles : List String
  preBackupSuccess : Bool
  rpHasChainBackup : Bool
  postAuditChainSize : Option Nat
  postMissingConfigs : List String

/-- `_check_audit_chain_exists`:
`chain_file.exists() and chain_file.stat().st_size > 0`. -/
def checkAuditChainExists (env : RecEnv) : Bool :=
  match env.postAuditChainSize with
  | some n => decide (0 < n)
  | none => false

/-- `_check_config_files_exist`: every essential config present
(`len(missing_configs) == 0`). -/
def checkConfigFilesExist (env : RecEnv) : Bool :=
  decide (env.postMissingConfigs.length = 0)

/-- `_check_chain_integrity`: the source returns a mock
`{"success": True}` unconditionally. -/
def checkChainIntegrity : Bool := true

/-- `_check_system_functionality`: mock, always `success: True`. -/
def checkSystemFunctionality : Bool := true

/-- `_check_performance_metrics`: mock, always `success: True`. -/
def checkPerformanceMetrics : Bool := true

/-- `_check_compliance_requirements`: mock, always `success: True`. -/
def checkComplianceRequirements : Bool := true

/-- Result dict of `_verify_recovery_success`. -/
structure VerificationResult where
  overallSuccess : Bool
  checksPerformed : List (String × Bool)
  verificationMode : String

/-- The check list assembled by `_verify_recovery_success`: two basic
checks for all modes, two more for `standard`/`full`, two more for
`full`. -/
def recoveryChecks (env : RecEnv) (mode : String) : List (String × Bool) :=
  ([("audit_chain_exists", checkAuditChainExists env),
    ("config_files_exist", checkConfigFilesExist env)]
   ++ (if mode = "standard" ∨ mode = "full" then
        [("chain_integrity", checkChainIntegrity),
         ("system_functionality", checkSystemFunctionality)]
      else [])
   ++ (if mode = "full" then
        [("performance_validation", checkPerformanceMetrics),
         ("compliance_validation", checkComplianceRequirements)]
      else []))

/-- `_verify_recovery_success(verification_mode)`: `overall_success`
is the conjunction of all performed checks. -/
def verifyRecoverySuccess (env : RecEnv) (mode : String) : VerificationResult :=
  let checks := recoveryChecks env mode
  { overallSuccess := checks.all (fun c => c.2)
    checksPerformed := checks
    verificationMode := mode }

/-- `_verify_recovery_point_integrity`: no stored checksum means
invalid; otherwise the recomputed checksum must match and no required
file may be missing. -/
def verifyRecoveryPointIntegrity (env : RecEnv) : Bool :=
  match env.metadataChecksum with
  | none => false
  | some expected =>
    decide (expected = env.currentChecksum) && decide (env.rpMissingFiles.length = 0)

/-- `_restore_audit_chain`: returns `success: False` when the recovery
point has no `audit_chain_backup.pkl.gz` (no raise), `success: True`
otherwise (copy errors are not modelled). -/
def restoreAuditChainStep (env : RecEnv) : Bool := env.rpHasChainBackup

/-- `_restore_system_config`: returns `success: True` even when nothing
is restored (copy errors not modelled). -/
def restoreSystemConfigStep : Bool := true

/-- `_restore_user_data`: returns `success: True` even when nothing is
restored (copy errors not modelled). -/
def restoreUserDataStep : Bool := true

/-- Result dict of `perform_recovery` (claim-relevant fields). -/
structure RecoveryResult where
  success : Bool
  error : Option String
  currentRecovery : Bool
  verification : Option VerificationResult

/-- The early-return dict for a second in-flight recovery:
`{"success": False, "error": "Recovery operation already in progress",
"current_recovery": True}`. -/
def recoveryAlreadyInProgress : RecoveryResult :=
  { success := false, error := some "Recovery operation already in progress",
    currentRecovery := true, verification := none }

/-- The `except` branch result of `perform_recovery`. -/
def recoveryFailure (msg : String) : RecoveryResult :=
  { success := false, error := some msg, currentRecovery := false, verification := none }

/-- `perform_recovery(recovery_point_id, target_time, verification_mode)`.
Returns the result dict, the final `DRState` and the ordered list of
I/O helpers that ran (so "no step executed" is a provable statement).
Control flow follows the source: early return if a recovery is in
progress; raises (modelled by `recoveryFailure`) for missing recovery
point, missing metadata, failed integrity check and failed pre-recovery
backup; then the three restore steps run with their results merely
recorded; `_verify_recovery_success` runs; the recovery record stores
`success = verification overall_success`, but the RETURNED dict's
`success` field is the literal `True` of the source
(`return {"success": True, ...}`), independent of step and verification
outcomes.  The `finally` clause resets `recovery_in_progress`. -/
def performRecovery (st : DRState) (env : RecEnv) (rpId : String)
    (targetTime : Option Int) (mode : String) :
    RecoveryResult × DRState × List String :=
  if st.recoveryInProgress then
    (recoveryAlreadyInProgress, st, [])
  else if !env.rpExists then
    (recoveryFailure ("Recovery point " ++ rpId ++ " not found"),
     { st with recoveryInProgress := false },
     ["find_recovery_point", "log_recovery_operation"])
  else if !env.metadataExists then
    (recoveryFailure "Recovery metadata file not found",
     { st with recoveryInProgress := false },
     ["find_recovery_point", "load_recovery_metadata", "log_recovery_operation"])
  else if !verifyRecoveryPointIntegrity env then
    (recoveryFailure "Recovery point integrity check failed",
     { st with recoveryInProgress := false },
     ["find_recovery_point", "load_recovery_metadata",
      "verify_recovery_point_integrity", "log_recovery_operation"])
  else if !env.preBackupSuccess then
    (recoveryFailure "Failed to create pre-recovery backup",
     { st with recoveryInProgress := false },
     ["find_recovery_point", "load_recovery_metadata",
      "verify_recovery_point_integrity", "create_pre_recovery_backup",
      "log_recovery_operation"])
  else
    let steps : List (String × Bool) :=
      [("audit_chain", restoreAuditChainStep env),
       ("system_config", restoreSystemConfigStep),
       ("user_data", restoreUserDataStep)]
    let ver := verifyRecoverySuccess env mode
    let record : RecoveryRecord :=
      { recoveryPointId := rpId, succeeded := ver.overallSuccess,
        stepResults := steps, verificationOk := ver.overallSuccess }
    ({ success := true, error := none, currentRecovery := false,
       verification := some ver },
     { recoveryInProgress := false,
       recoveryHistory := st.recoveryHistory ++ [record] },
     ["find_recovery_point", "load_recovery_metadata",
      "verify_recovery_point_integrity", "create_pre_recovery_backup",
      "restore_audit_chain", "restore_system_config", "restore_user_data",
      "verify_recovery_success", "log_recovery_operation"])

/-! ## Concrete scenario definitions used by the theorems below -/

/-- Projection: the `valid` flag of a successful verification outcome. -/
def outcomeValid : VerifyOutcome → Option Bool
  | .ok r => some r.valid
  | .err _ => none

/-- Projection: the `integrity_score` of a successful verification
outcome. -/
def outcomeScore : VerifyOutcome → Option Rat
  | .ok r => some r.integrityScore
  | .err _ => none

/-- Projection: the `entries_count` of a successful verification
outcome. -/
def outcomeCount : VerifyOutcome → Option Nat
  | .ok r => some r.entriesCount
  | .err _ => none

/-- Projection: `(position, chain_link_broken)` of each corruption
record of a successful verification outcome. -/
def outcomeTags : VerifyOutcome → Option (List (Nat × Bool))
  | .ok r => some (r.corruptedEntries.map fun c => (c.position, c.isLinkBroken))
  | .err _ => none

/-- A fixed clock for the `i`-th scenario append. -/
def mkCk (i : Nat) : Clock :=
  { tsIdStr := "20240101_00000" ++ toString i ++ "_000000", timestamp := 1000 + i, hijri := "1445-06-19" }

/-- The spec scenario payloads:
`{decision_type: "procurement", user_id: "123456789i"}`. -/
def mkPayload (i : Nat) : PyFields :=
  fieldsOf [("decision_type", .jstr "procurement"), ("user_id", .jstr ("123456789" ++ toString i))]

/-- A one-entry chain built purely by `append_entry`. -/
def st1 : LedgerState := (appendEntry initialLedger (mkPayload 0) (mkCk 0)).2

/-- A two-entry chain built purely by `append_entry`. -/
def st2 : LedgerState := (appendEntry st1 (mkPayload 1) (mkCk 1)).2

/-- The five-entry chain of the spec scenario, built purely by
`append_entry`. -/
def build5 : LedgerState :=
  (List.range 5).foldl (fun st i => (appendEntry st (mkPayload i) (mkCk i)).2) initialLedger

/-- `build5` with entry index 2's stored `hash` field overwritten
out-of-band (the spec's on-disk corruption of the chain). -/
def mutate5 : LedgerState :=
  { build5 with
     chain := build5.chain.map fun e =>
       if e.chainPosition = 2 then { e with hash := some "corrupted" } else e }

/-- The ledger state left behind after `verify_chain_integrity` has
detected corruption on `st1` (writes should now be disabled per spec). -/
def stQuarantined : LedgerState := (verifyChainIntegrity st1 2000).2

/-- The range-verification result on `st1` over a window containing
its entry (fallback value is never used: the call succeeds). -/
def r9 : RangeResult :=
  match verifyRange st1 0 5000 none with
  | some r => r
  | none => { valid := false, entriesCount := 0, integrityScore := 0, corruptedEntries := [] }

/-- Whether an entry passes the hash self-consistency check of
`verify_range` / `verify_chain_integrity`: its stored hash equals the
recomputation with the hash field excluded. -/
def entrySelfConsistent (e : Entry) : Bool :=
  match calculateHash e true with
  | some h => e.hash == some h
  | none => false

/-- A one-artifact manifest for the concrete backup scenarios. -/
def chainOnlyManifest : Manifest :=
  { filesBackedUp :=
      [{ originalFilename := "audit_chain.pkl.gz"
         backupFilename := "audit_chain.pkl.gz"
         compressed := true }]
    startTime := "2024-01-01T00:00:00" }

/-- A backup directory whose single artifact is present but has size 0
(fails the integrity check). -/
def zeroSizeBackup : BackupData :=
  { manifest := some chainOnlyManifest, files := [("audit_chain.pkl.gz", 0)] }

/-- A backup filesystem with one daily backup that fails verification. -/
def fsZeroSize : BackupFS :=
  { daily := [("backup_20240101_000000", zeroSizeBackup)]
    monthly := []
    yearly := [] }

/-- A disaster-recovery environment in which everything succeeds except
that `config.json` is missing after the restore, so the
`config_files_exist` verification check fails. -/
def envMissingConfig : RecEnv :=
  { rpExists := true
    metadataExists := true
    metadataChecksum := some "cafe"
    currentChecksum := "cafe"
    rpMissingFiles := []
    preBackupSuccess := true
    rpHasChainBackup := true
    postAuditChainSize := some 2048
    postMissingConfigs := ["config.json"] }

/-- A fully healthy disaster-recovery environment. -/
def envHealthy : RecEnv :=
  { envMissingConfig with postMissingConfigs := [] }

/-- An idle disaster-recovery state. -/
def drIdle : DRState := { recoveryInProgress := false, recoveryHistory := [] }

/-- A disaster-recovery state with a recovery already in flight. -/
def drBusy : DRState := { recoveryInProgress := true, recoveryHistory := [] }

/-- A payload containing a non-JSON-serializable object. -/
def badPayload : PyFields := fieldsOf [("blob", .pyObject 0)]

/-- A bias result without a `confidence` key. -/
def biasNoConf : PyFields :=
  fieldsOf [("bias_type", .jstr "regional"), ("affected_region", .jstr "north")]

/-- Membership of a key/value pair in a dict's field sequence. -/
inductive PyFields.Memb (k : String) (v : PyVal) : PyFields → Prop where
  | head (rest : PyFields) : Memb k v (.cons k v rest)
  | tail (k2 : String) (v2 : PyVal) (rest : PyFields) :
      Memb k v rest → Memb k v (.cons k2 v2 rest)

/-- Ledger states reachable from a fresh ledger by a sequence of
`append_entry` calls (successful or not; a failed append leaves the
state unchanged). -/
inductive Reachable : LedgerState → Prop where
  | init : Reachable initialLedger
  | append (st : LedgerState) (payload : PyFields) (ck : Clock) :
      Reachable st → Reachable (appendEntry st payload ck).2

/-- The chain-link invariant of the spec, phrased recursively: the
first entry's `previous_hash` is `p`, and from then on each entry's
`previous_hash` is its predecessor's stored `hash`. -/
def linkedFrom : Option String → List Entry → Prop
  | _, [] => True
  | p, e :: rest => e.previousHash = p ∧ linkedFrom e.hash rest

/-- The hash a new entry should link to: the stored hash of the last
entry, or `p` for an empty chain (so that
`getLatestHash st = tailHash (some genesisHash) st.chain`). -/
def tailHash (p : Option String) (l : List Entry) : Option String :=
  match l.getLast? with
  | none => p
  | some e => e.hash

/-! ## Theorems -/

/-- **C7.**  If a recovery operation is already in progress, a second
`perform_recovery` call fails immediately with the
`RecoveryInProgress` result (`success: False`,
`"Recovery operation already in progress"`, `current_recovery: True`),
runs no recovery step or I/O helper (empty effect list) and leaves the
recovery state — history, in-progress flag and, by the absence of any
effect, the target directories — unchanged. -/
theorem performRecovery_single_flight (st : DRState) (env : RecEnv)
    (rpId : String) (targetTime : Option Int) (mode : String)
    (h : st.recoveryInProgress = true) :
    performRecovery st env rpId targetTime mode = (recoveryAlreadyInProgress, st, []) := by
  unfold performRecovery
  rw [h]
  simp

/-- Witness for C7 at a concrete busy state. -/
theorem performRecovery_single_flight_witness :
    performRecovery drBusy envHealthy "RP_20240101_000000" none "full"
      = (recoveryAlreadyInProgress, drBusy, []) :=
  performRecovery_single_flight drBusy envHealthy "RP_20240101_000000" none "full" rfl

/-- **C4** (code bug).  In an environment where every recovery step
succeeds but the `config_files_exist` post-recovery check fails, the
verification reports `overall_success = False` — and the recovery
record stored in the history says the recovery failed — yet the dict
returned by `perform_recovery` carries the hard-coded `success: True`
of its non-exception path.  The claim (and the source's own recovery
record) says the returned result must report failure. -/
theorem performRecovery_success_despite_failed_check :
    (performRecovery drIdle envMissingConfig "RP_20240101_000000" none "full").1.success = true ∧
    ((performRecovery drIdle envMissingConfig "RP_20240101_000000" none "full").1.verification.map
        fun v => v.overallSuccess) = some false ∧
    ((performRecovery drIdle envMissingConfig "RP_20240101_000000" none "full").2.1.recoveryHistory.map
        fun rec => rec.succeeded) = [false] := by
  refine ⟨rfl, rfl, rfl⟩

/-- **C10.**  `log_bias_alert` evaluates `bias_result["confidence"]`
while building the alert entry, before `append_entry` is reached: a
bias result without a `confidence` key raises a `KeyError` and the
ledger state is returned unchanged. -/
theorem logBiasAlert_missing_confidence_fails (st : LedgerState) (entryId : String)
    (biasResult : PyFields) (ck : Clock) (ts : String)
    (h : lookupField biasResult "confidence" = none) :
    logBiasAlert st entryId biasResult ck ts = (.error "KeyError: confidence", st) := by
  unfold logBiasAlert
  rw [h]

/-- Witness for C10 at a concrete confidence-free bias result. -/
theorem logBiasAlert_missing_confidence_fails_witness :
    logBiasAlert st1 "procurement_1234567890_x" biasNoConf (mkCk 3) "20240101_000003"
      = (.error "KeyError: confidence", st1) :=
  logBiasAlert_missing_confidence_fails st1 "procurement_1234567890_x" biasNoConf
    (mkCk 3) "20240101_000003" rfl

/-- **C8.**  `restore_from_backup` called with a backup id found in no
retention tier, or with a backup failing the pre-restore integrity
verification, returns a failure result having written nothing to the
restore target (the raises happen before the restore loop). -/
theorem restore_precondition_failure_no_writes (fs : BackupFS) (backupId : String)
    (restorePath : Option String)
    (h : findBackup fs backupId = none ∨
         ∃ b, findBackup fs backupId = some b ∧ (verifyBackup b).valid = false) :
    (restoreFromBackup fs backupId restorePath).success = false ∧
    (restoreFromBackup fs backupId restorePath).targetWrites = [] := by
  rcases h with h | ⟨b, hb, hv⟩
  · unfold restoreFromBackup
    rw [h]
    exact ⟨rfl, rfl⟩
  · unfold restoreFromBackup
    rw [hb]
    cases hm : b.manifest with
    | none => simp [hm]
    | some m => simp [hm, hv]

/-- Witness for C8 at a backup whose only artifact has size 0. -/
theorem restore_precondition_failure_no_writes_witness :
    (restoreFromBackup fsZeroSize "backup_20240101_000000" none).success = false ∧
    (restoreFromBackup fsZeroSize "backup_20240101_000000" none).targetWrites = [] :=
  restore_precondition_failure_no_writes fsZeroSize "backup_20240101_000000" none
    (Or.inr ⟨zeroSizeBackup, rfl, rfl⟩)

/-- **C1** (code bug).  A chain built purely by `append_entry` FAILS
`verify_chain_integrity`: the append-time digest is computed over the
entry with its `"hash": null` placeholder still included
(`_calculate_hash(complete_entry)` with the default
`exclude_hash=False`), while verification recomputes the digest with
the hash key removed, so every appended entry's stored hash differs
from the verification recomputation.  On the one-entry append-only
chain `st1`, verification reports `valid: False` with integrity score
`1 - 1/1 = 0.0` — the claim (and spec) says `valid: True`, score 1.0. -/
theorem append_only_chain_fails_verification :
    (st1.chain.map fun e => e.hash == calculateHash e true) = [false] ∧
    outcomeValid (verifyChainIntegrity st1 2000).1 = some false ∧
    outcomeScore (verifyChainIntegrity st1 2000).1
      = some (1 - ((1 : Nat) : Rat) / ((1 : Nat) : Rat)) ∧
    (1 - ((1 : Nat) : Rat) / ((1 : Nat) : Rat) : Rat) = 0 :=
  ⟨by decide, by decide, rfl, by norm_num⟩

/-- **C2** (code bug).  After `verify_chain_integrity` detects
corruption, `_handle_corruption` does persist a corruption report and
does set `_corruption_checks_enabled = False` ("Disable further writes
until resolved"), but `append_entry` never consults that flag: an
append in the quarantined state still succeeds and grows the chain.
The claim says every subsequent append must fail until the condition
is manually cleared. -/
theorem append_succeeds_in_quarantined_state :
    stQuarantined.corruptionChecksEnabled = false ∧
    stQuarantined.corruptionReports.length = 1 ∧
    (appendEntry stQuarantined (mkPayload 1) (mkCk 1)).1.isOk = true ∧
    (appendEntry stQuarantined (mkPayload 1) (mkCk 1)).2.chain.length = 2 ∧
    (appendEntry stQuarantined (mkPayload 1) (mkCk 1)).2.corruptionChecksEnabled = false :=
  ⟨by decide, by decide, by decide, by decide, by decide⟩

/-- **C3** counterexample.  On the spec's five-entry scenario chain
with entry index 2's stored hash overwritten, `verify_chain_integrity`
does NOT return integrity score 0.8, and does NOT produce exactly one
corrupted-entry record. -/
theorem five_entry_mutation_not_single_record :
    outcomeScore (verifyChainIntegrity mutate5 9999).1 ≠ some (4 / 5 : Rat) ∧
    ((outcomeTags (verifyChainIntegrity mutate5 9999).1).map fun tags => tags.length) ≠ some 1 := by
  constructor
  · have h : outcomeScore (verifyChainIntegrity mutate5 9999).1
        = some (1 - ((6 : Nat) : Rat) / ((5 : Nat) : Rat)) := rfl
    rw [h]
    intro hc
    have hq := Option.some.inj hc
    norm_num at hq
  · intro hc
    have h : ((outcomeTags (verifyChainIntegrity mutate5 9999).1).map fun tags => tags.length)
        = some 6 := by decide
    rw [h] at hc
    exact absurd (Option.some.inj hc) (by norm_num)

/-- **C3** amended.  On that scenario, `verify_chain_integrity` returns
`valid: False`; the corrupted-entry records are hash-mismatch records
at every position 0–4 (the append-time digest includes the
`"hash": null` placeholder, so every append-only entry already fails
the hash recomputation) plus one broken-chain-link record at position
3 (entry 3's `previous_hash` no longer matches the overwritten hash of
entry 2) — six records in total, including the claimed position-2
record — and the integrity score is `1 - 6/5 = -0.2`. -/
theorem five_entry_mutation_verification_behavior :
    outcomeValid (verifyChainIntegrity mutate5 9999).1 = some false ∧
    outcomeTags (verifyChainIntegrity mutate5 9999).1
      = some [(0, false), (1, false), (2, false), (3, false), (3, true), (4, false)] ∧
    outcomeScore (verifyChainIntegrity mutate5 9999).1 = some (-(1 / 5 : Rat)) := by
  refine ⟨by decide, by decide, ?_⟩
  have h : outcomeScore (verifyChainIntegrity mutate5 9999).1
      = some (1 - ((6 : Nat) : Rat) / ((5 : Nat) : Rat)) := rfl
  rw [h]
  norm_num

/-- A dict whose fields include a value that `json.dumps` cannot
serialize is itself unserializable (helper). -/
theorem dumpsFields_eq_none (fs : PyFields) (k : String) (v : PyVal)
    (hm : PyFields.Memb k v fs) (hv : dumpsRaw v = none) : dumpsFields fs = none := by
  induction hm with
  | head rest => simp [dumpsFields, hv]
  | tail k2 v2 rest hsub ih =>
    cases h2 : dumpsRaw v2 <;> simp [dumpsFields, h2, ih]

/-- `insertField` preserves field membership (helper). -/
theorem memb_insertField (k : String) (v : PyVal) (k2 : String) (v2 : PyVal)
    (fs : PyFields) (hm : PyFields.Memb k v fs) :
    PyFields.Memb k v (insertField k2 v2 fs) := by
  induction hm with
  | head rest =>
    unfold insertField
    split
    · exact .head _
    · exact .tail _ _ _ (.head _)
  | tail ka va rest hsub ih =>
    unfold insertField
    split
    · exact .tail _ _ _ ih
    · exact .tail _ _ _ (.tail _ _ _ hsub)

/-- Inserting a pair makes it a member (helper). -/
theorem memb_insertField_self (k : String) (v : PyVal) :
    (fs : PyFields) → PyFields.Memb k v (insertField k v fs)
  | .nil => .head _
  | .cons k2 v2 rest => by
    unfold insertField
    split
    · exact .tail _ _ _ (memb_insertField_self k v rest)
    · exact .head _

/-- `sortFields` preserves field membership (helper). -/
theorem memb_sortFields (k : String) (v : PyVal) (fs : PyFields)
    (hm : PyFields.Memb k v fs) : PyFields.Memb k v (sortFields fs) := by
  induction hm with
  | head rest => exact memb_insertField_self _ _ _
  | tail k2 v2 rest hsub ih => exact memb_insertField _ _ _ _ _ ih

/-- `sortKeysFields` maps each member's value through `sortKeys`
(helper). -/
theorem memb_sortKeysFields (k : String) (v : PyVal) (fs : PyFields)
    (hm : PyFields.Memb k v fs) :
    PyFields.Memb k (sortKeys v) (sortKeysFields fs) := by
  induction hm with
  | head rest => exact .head _
  | tail k2 v2 rest hsub ih => exact .tail _ _ _ ih

/-- An entry whose `data` payload is unserializable has no append-time
digest: `_calculate_hash` raises inside `json.dumps` (helper). -/
theorem calculateHash_none_of_data (e : Entry) (h : dumps e.data = none) :
    calculateHash e false = none := by
  unfold calculateHash entryToPyVal dumps
  simp only [sortKeys]
  have hmem : PyFields.Memb "data" (sortKeys e.data)
      (sortKeysFields (fieldsOf
        [("id", .jstr e.id),
         ("data", e.data),
         ("timestamp", .jstr (isoformat e.timestamp)),
         ("timestamp_hijri", .jstr e.timestampHijri),
         ("previous_hash", match e.previousHash with | none => .jnull | some s => .jstr s),
         ("chain_position", .jnum (e.chainPosition : Rat)),
         ("retention_until", .jstr (isoformat e.retentionUntil)),
         ("hash", match e.hash with | none => .jnull | some s => .jstr s)])) :=
    memb_sortKeysFields _ _ _ (.tail _ _ _ (.head _))
  have hnone : dumpsRaw (sortKeys e.data) = none := h
  have hfs := dumpsFields_eq_none _ _ _ (memb_sortFields _ _ _ hmem) hnone
  simp [dumpsRaw, hfs]

/-- **C6.**  When the payload handed to `append_entry` cannot be
canonically serialized, the append raises before the entry is
committed: the call returns the error and the ledger state — chain and
id index — exactly as before the call. -/
theorem appendEntry_unserializable_rejected (st : LedgerState) (payload : PyFields)
    (ck : Clock) (h : dumps (PyVal.jobj payload) = none) :
    appendEntry st payload ck =
      (.error "Chain append failed: payload is not JSON-serializable", st) := by
  have hc := calculateHash_none_of_data
    { id := generateEntryId payload ck.tsIdStr
      data := PyVal.jobj payload
      timestamp := ck.timestamp
      timestampHijri := ck.hijri
      previousHash := getLatestHash st
      hash := none
      chainPosition := st.chain.length
      retentionUntil := ck.timestamp + 365 * retentionYears * 86400 } h
  simp only [appendEntry]
  rw [hc]

/-- Witness for C6 at a payload holding a non-serializable object. -/
theorem appendEntry_unserializable_rejected_witness :
    appendEntry initialLedger badPayload (mkCk 0) =
      (.error "Chain append failed: payload is not JSON-serializable", initialLedger) :=
  appendEntry_unserializable_rejected initialLedger badPayload (mkCk 0) rfl

/-- `tailHash` steps past the head of a chain (helper). -/
theorem tailHash_cons (p : Option String) (a : Entry) (rest : List Entry) :
    tailHash p (a :: rest) = tailHash a.hash rest := by
  cases rest with
  | nil => rfl
  | cons b bs => rfl

/-- Appending an entry that links to the current tail hash preserves
the link invariant (helper). -/
theorem linkedFrom_append (p : Option String) (l : List Entry) (e : Entry)
    (hl : linkedFrom p l) (he : e.previousHash = tailHash p l) :
    linkedFrom p (l ++ [e]) := by
  induction l generalizing p with
  | nil => exact ⟨he, trivial⟩
  | cons a rest ih =>
    refine ⟨hl.1, ih a.hash hl.2 ?_⟩
    rw [he, tailHash_cons]

/-- Every ledger state reachable by `append_entry` calls satisfies the
link invariant starting from the genesis sentinel (helper). -/
theorem reachable_linkedFrom (st : LedgerState) (h : Reachable st) :
    linkedFrom (some genesisHash) st.chain := by
  induction h with
  | init => trivial
  | append st payload ck hr ih =>
    simp only [appendEntry]
    split
    · exact ih
    · exact linkedFrom_append _ _ _ ih rfl

/-- The head of a linked chain carries the starting hash (helper). -/
theorem linkedFrom_get_zero (p : Option String) (l : List Entry)
    (h : linkedFrom p l) (h0 : 0 < l.length) :
    (l.get ⟨0, h0⟩).previousHash = p := by
  cases l with
  | nil => exact absurd h0 (by simp)
  | cons a rest => exact h.1

/-- Each non-head entry of a linked chain links to its predecessor
(helper). -/
theorem linkedFrom_get_succ (p : Option String) (l : List Entry)
    (h : linkedFrom p l) :
    ∀ i : Nat, ∀ hi : i + 1 < l.length,
      (l.get ⟨i + 1, hi⟩).previousHash = (l.get ⟨i, Nat.lt_of_succ_lt hi⟩).hash := by
  induction l generalizing p with
  | nil => intro i hi; exact absurd hi (by simp)
  | cons a rest ih =>
    intro i hi
    cases i with
    | zero =>
      have h0 : 0 < rest.length := by
        simpa using hi
      exact linkedFrom_get_zero a.hash rest h.2 h0
    | succ j =>
      have hj : j + 1 < rest.length := by
        simpa using hi
      exact ih a.hash h.2 j hj

/-- **C5.**  For every chain state reachable by a sequence of
`append_entry` calls, the hash-chain link invariant holds: the first
entry's `previous_hash` is the genesis sentinel, and for every
position `i > 0`, `chain[i].previous_hash` equals `chain[i-1].hash`. -/
theorem appendOnly_chain_link_invariant (st : LedgerState) (h : Reachable st) :
    (∀ h0 : 0 < st.chain.length,
      (st.chain.get ⟨0, h0⟩).previousHash = some genesisHash) ∧
    (∀ i : Nat, ∀ hi : i + 1 < st.chain.length,
      (st.chain.get ⟨i + 1, hi⟩).previousHash
        = (st.chain.get ⟨i, Nat.lt_of_succ_lt hi⟩).hash) := by
  have hl := reachable_linkedFrom st h
  exact ⟨fun h0 => linkedFrom_get_zero _ _ hl h0, linkedFrom_get_succ _ _ hl⟩

/-- Witness for C5 on the concrete two-entry append-only chain `st2`:
its first entry links to the genesis sentinel and its second entry
links to the first entry's stored hash. -/
theorem appendOnly_chain_link_invariant_witness :
    (st2.chain.get ⟨0, by decide⟩).previousHash = some genesisHash ∧
    (st2.chain.get ⟨1, by decide⟩).previousHash = (st2.chain.get ⟨0, by decide⟩).hash := by
  have hr : Reachable st2 :=
    Reachable.append st1 (mkPayload 1) (mkCk 1)
      (Reachable.append initialLedger (mkPayload 0) (mkCk 0) Reachable.init)
  have hinv := appendOnly_chain_link_invariant st2 hr
  exact ⟨hinv.1 (by decide), hinv.2 0 (by decide)⟩

/-- The per-entry loop of `verify_range` computes exactly the
hash-self-consistency failures of the scanned list, in order, and
succeeds empty iff every scanned entry is self-consistent (helper). -/
theorem rangeCheck_characterization (l : List Entry) (recs : List RangeCorrupt)
    (h : rangeCheck l = some recs) :
    recs.map (fun c => c.entryId)
        = (l.filter fun x => !entrySelfConsistent x).map (fun x => x.id) ∧
    recs.isEmpty = l.all entrySelfConsistent := by
  induction l generalizing recs with
  | nil =>
    simp [rangeCheck] at h
    subst h
    simp
  | cons e rest ih =>
    unfold rangeCheck at h
    cases hc : calculateHash e true with
    | none => simp [hc] at h
    | some expected =>
      simp only [hc] at h
      cases hr : rangeCheck rest with
      | none => simp [hr] at h
      | some tailRecs =>
        simp only [hr] at h
        obtain ⟨ih1, ih2⟩ := ih tailRecs hr
        by_cases he : e.hash = some expected
        · rw [if_pos he] at h
          cases h
          have hsc : entrySelfConsistent e = true := by
            simp [entrySelfConsistent, hc, he]
          simp [List.filter_cons, List.all_cons, hsc, ih1, ih2]
        · rw [if_neg he] at h
          cases h
          have hsc : entrySelfConsistent e = false := by
            simp [entrySelfConsistent, hc]
            exact he
          simp [List.filter_cons, List.all_cons, hsc, ih1, ih2]

/-- **C9.**  `verify_range` checks only the hash self-consistency of
the entries matching the timestamp window and the optional
decision-type filter: the reported `entries_count` is exactly the
number of matching entries, the `valid` flag holds iff every matching
entry is hash-self-consistent, and the corrupted-entry records are
exactly (in chain order) the matching entries failing their own hash
recomputation — in particular no chain-linkage comparison contributes
to the result. -/
theorem verifyRange_only_self_consistency (st : LedgerState) (startDate endDate : Int)
    (decisionType : Option String) (r : RangeResult)
    (h : verifyRange st startDate endDate decisionType = some r) :
    r.entriesCount = (st.chain.filter (matchesRange startDate endDate decisionType)).length ∧
    r.valid = (st.chain.filter (matchesRange startDate endDate decisionType)).all
        entrySelfConsistent ∧
    r.corruptedEntries.map (fun c => c.entryId)
      = ((st.chain.filter (matchesRange startDate endDate decisionType)).filter
          fun x => !entrySelfConsistent x).map (fun x => x.id) := by
  unfold verifyRange at h
  cases hr : rangeCheck (st.chain.filter (matchesRange startDate endDate decisionType)) with
  | none => simp [hr] at h
  | some recs =>
    simp only [hr] at h
    obtain ⟨h1, h2⟩ := rangeCheck_characterization _ _ hr
    cases h
    exact ⟨rfl, h2, h1⟩

/-- Witness for C9 on the one-entry chain `st1` with a window
containing its entry and no decision-type filter. -/
theorem verifyRange_only_self_consistency_witness :
    r9.entriesCount = (st1.chain.filter (matchesRange 0 5000 none)).length ∧
    r9.valid = (st1.chain.filter (matchesRange 0 5000 none)).all entrySelfConsistent ∧
    r9.corruptedEntries.map (fun c => c.entryId)
      = ((st1.chain.filter (matchesRange 0 5000 none)).filter
          fun x => !entrySelfConsistent x).map (fun x => x.id) :=
  verifyRange_only_self_consistency st1 0 5000 none r9 rfl

end SaudiAudit
